import Mathlib

/-!
Shallow embedding of the SyncVision warehouse reconciliation engine
(`warehouse_sync_module`), translated from the Python source:
  - `models/warehouse_sync.py` (identifier normalisation, feed ingestion,
    matching, stock tiers, chunked driver, run orchestration, log purge)
  - `models/warehouse_missing_products.py` (relaxed-match guard on create)

Python strings are modelled as `List Char` (`PyStr`); Python `None` for a
nullable string is `Option PyStr`.  Python `float` quantities are modelled
as `ℚ` (all operations used by the engine are order comparisons and
equality, on which `ℚ` agrees with IEEE floats for the feed's values).
Unicode-sensitive Python operations (`str.strip`, `str.lower`, `str.upper`,
`str.isalnum`) are modelled by their ASCII behaviour via Lean `Char`
primitives, which agrees with Python on the ASCII identifiers this module
handles.
-/

namespace SyncVision

/-- Python strings, modelled as lists of characters. -/
abbrev PyStr := List Char

/-- `str.strip()` from the left: drop leading whitespace. -/
def trimLeft (l : PyStr) : PyStr := l.dropWhile Char.isWhitespace

/-- `str.strip()` from the right: drop trailing whitespace. -/
def trimRight (l : PyStr) : PyStr := (l.reverse.dropWhile Char.isWhitespace).reverse

/-- Python `str.strip()`. -/
def pyStrip (l : PyStr) : PyStr := trimRight (trimLeft l)

/-- Python `str.lower()` (ASCII model). -/
def pyLower (l : PyStr) : PyStr := l.map Char.toLower

/-- Python `str.upper()` (ASCII model). -/
def pyUpper (l : PyStr) : PyStr := l.map Char.toUpper

/-- `"".join(ch for ch in s if ch.isalnum())` (ASCII model). -/
def filterAlnum (l : PyStr) : PyStr := l.filter Char.isAlphanum

/-- The placeholder strings `{"none", "null", "n/a", "na"}` treated as empty
identifiers (`warehouse_sync.py` line 56). -/
def placeholders : List PyStr :=
  ["none".toList, "null".toList, "n/a".toList, "na".toList]

/-- `WarehouseSync._sanitize_identifier` (`warehouse_sync.py` lines 49-58).
Trims, and maps `None`, empty and placeholder values to the empty string. -/
def sanitizeIdentifier (value : Option PyStr) : PyStr :=
  match value with
  | none => []
  | some v =>
    let valueStr := pyStrip v
    if valueStr = [] then []
    else if pyLower valueStr ∈ placeholders then []
    else valueStr

/-- `WarehouseSync._normalize_identifier` (`warehouse_sync.py` lines 60-67).
The argument is a Python string (every call site passes a string); Python's
`if not value` is the emptiness test. -/
def normalizeIdentifierRaw (value : PyStr) : Option PyStr :=
  if value = [] then none
  else
    let valueStr := pyStrip value
    if valueStr = [] then none
    else if pyLower valueStr = "none".toList then none
    else
      let normalized := filterAlnum valueStr
      if normalized = [] then none else some (pyUpper normalized)

/-- The composite `_normalize_identifier(_sanitize_identifier(x))`, which is
how every call site of the engine normalises a raw nullable identifier
(`warehouse_sync.py` lines 215, 220, 268-269, 775, 780): the spec's
`normalize`. -/
def normalizeId (value : Option PyStr) : Option PyStr :=
  normalizeIdentifierRaw (sanitizeIdentifier value)

/-- `normalize` as worded by the spec (§4.1): apply `sanitize`; null if the
input is null, trims to empty, or is a placeholder; otherwise strip every
non-alphanumeric character and upper-case the remainder, null if that
result is empty.  Stated separately so the code's composite `normalizeId`
can be proved to refine it. -/
def normalizeSpec (value : Option PyStr) : Option PyStr :=
  match value with
  | none => none
  | some v =>
    let t := pyStrip v
    if t = [] then none
    else if pyLower t ∈ placeholders then none
    else
      let core := pyUpper (filterAlnum t)
      if core = [] then none else some core

/-- The inline validity test of `_process_single_product`
(`warehouse_sync.py` lines 262-263):
`bool(raw and str(raw).strip() and str(raw).strip().lower() not in
['none','null','n/a','na',''])`. -/
def hasValidIdentifier (raw : Option PyStr) : Bool :=
  match raw with
  | none => false
  | some v =>
    v ≠ [] && pyStrip v ≠ [] &&
      !(placeholders.contains (pyLower (pyStrip v)) || pyLower (pyStrip v) = [])

/-- The stock-tier rule of `_process_single_product`
(`warehouse_sync.py` lines 296-307; identically `sync_products`
lines 841-852).  `fallback` is `product.qty_available`, used by the final
`else` branch. -/
def quantityTier (qty fallback : ℚ) : ℚ :=
  if qty = 0 then 0
  else if 30 ≤ qty ∧ qty ≤ 50 then 2
  else if qty < 30 then 0
  else if 50 < qty ∧ qty < 200 then 5
  else if 200 ≤ qty then 10
  else fallback

/-! ## Feed ingestion (`_fetch_api_data`, lines 184-232) -/

/-- One raw item of the feed payload (`payload["data"]`), §6 of the spec:
`sku`, `barcode`, `brand`, `itemNumber`, `southbayStock` (absent → 0). -/
structure FeedItem where
  sku : Option PyStr
  barcode : Option PyStr
  itemNumber : Option PyStr
  brand : Option PyStr
  southbayStock : Option ℚ
deriving DecidableEq, Repr

/-- One entry of the lookup dictionaries built by `_fetch_api_data`
(lines 207-222).  `normalizedSku` models the optional `'normalized_sku'`
dictionary key, set only when truthy (lines 215-217). -/
structure ApiEntry where
  extId : PyStr
  qty : ℚ
  sku : PyStr
  barcode : Option PyStr
  brand : PyStr
  normalizedSku : Option PyStr
deriving DecidableEq, Repr

/-- The pair of lookup dictionaries returned by `_fetch_api_data`
(line 225), keys unique, modelled as association lists in insertion
order. -/
structure ApiData where
  bySku : List (PyStr × ApiEntry)
  byBarcode : List (PyStr × ApiEntry)
deriving DecidableEq, Repr

/-- Python dict assignment `d[k] = v`: overwrite in place if the key is
present, else append (preserving dict iteration order). -/
def dictInsert (k : PyStr) (v : ApiEntry) (d : List (PyStr × ApiEntry)) :
    List (PyStr × ApiEntry) :=
  if (d.lookup k).isSome then
    d.map (fun kv => if kv.1 = k then (k, v) else kv)
  else d ++ [(k, v)]

/-- The outcome of the HTTP fetch in `_fetch_api_data`: a transport or
timeout error (or unparsable JSON), or a parsed payload with its `success`
flag and optional `data` array. -/
inductive FetchResponse where
  | transportError
  | payload (success : Bool) (data : Option (List FeedItem))
deriving DecidableEq, Repr

/-- The per-item loop body of `_fetch_api_data` (lines 203-222). -/
def fetchStep (d : ApiData) (item : FeedItem) : ApiData :=
  let sku := sanitizeIdentifier item.sku
  let barcode := sanitizeIdentifier item.barcode
  let entryBarcode :=
    if barcode ≠ [] ∧ pyLower barcode ≠ "none".toList then some barcode else none
  let normalizedSku := normalizeIdentifierRaw sku
  let entry : ApiEntry :=
    { extId := sanitizeIdentifier item.itemNumber
      qty := item.southbayStock.getD 0
      sku := sku
      barcode := entryBarcode
      brand := sanitizeIdentifier item.brand
      normalizedSku := normalizedSku }
  let d1 :=
    match normalizedSku with
    | some k => { d with bySku := dictInsert k entry d.bySku }
    | none => d
  match normalizeIdentifierRaw barcode with
  | some b => { d1 with byBarcode := dictInsert b entry d1.byBarcode }
  | none => d1

/-- `_fetch_api_data` (lines 184-232): `none` on transport/timeout error
(lines 227-232) or on a payload lacking the `success` flag or the `data`
key (lines 195-197); otherwise the two lookup dictionaries. -/
def fetchApiData : FetchResponse → Option ApiData
  | .transportError => none
  | .payload success data =>
    if !success then none
    else
      match data with
      | none => none
      | some items => some (items.foldl fetchStep ⟨[], []⟩)

/-! ## Inventory products and the matcher -/

/-- An Odoo `product.product` as read and mutated by the engine.  The
record set processed by a run is the result of
`search([('type','in',['product','consu'])])` (line 127); `templateBrand`
and `websitePublished` live on the product template, which Odoo guarantees
to exist for every variant. -/
structure ProductT where
  pid : Nat
  defaultCode : Option PyStr
  barcode : Option PyStr
  qtyAvailable : ℚ
  prodType : PyStr
  detailedType : Option PyStr
  websitePublished : Bool
  templateBrand : Option PyStr
deriving DecidableEq, Repr

/-- `WarehouseSync._is_stockable_product` (lines 69-76): prefer a truthy
`detailed_type`, falling back to `type`; stockable iff the code is
`'product'`. -/
def isStockableProduct (p : ProductT) : Bool :=
  match p.detailedType with
  | some d => if d ≠ [] then d = "product".toList else p.prodType = "product".toList
  | none => p.prodType = "product".toList

/-- A `sku` field value in a log/exception record: either a plain string or
one of the generated placeholders `f"NO_SKU_{product.id}"` /
`f"UNKNOWN_SKU_{normalized_sku}"`. -/
inductive IdStr where
  | str (s : PyStr)
  | noSkuTag (pid : Nat)
  | unknownSkuTag (nsku : PyStr)
deriving DecidableEq, Repr

/-- The flat string a generated `IdStr` denotes, used when such a value
flows back into string operations (the relaxed-match guard). -/
def idStrToPyStr : IdStr → PyStr
  | .str s => s
  | .noSkuTag pid => "NO_SKU_".toList ++ (toString pid).toList
  | .unknownSkuTag n => "UNKNOWN_SKU_".toList ++ n

/-- The formatted messages the engine writes into `note` fields, one
constructor per f-string of the source, with the interpolated values as
fields. -/
inductive NoteMsg where
  | skippedMissingIds
  | noApiMatch
  | lowStock
  | stockUpdated (oldQty newQty : ℚ)
  | stockOk
  | missingSuffix (missingSku missingBarcode : Bool)
  | unpublishedReason (missingSku missingBarcode : Bool) (apiQty : Option ℚ)
  | syncSummary (status : PyStr) (message : PyStr)
  | stillMissing (qty : ℚ)
  | foundInApiMissing (qty : ℚ)
  | ignoredMatch (pid : Nat)
deriving DecidableEq, Repr

/-- A `warehouse.sync.log` record (lines 11-22). -/
structure SyncLogEntry where
  sku : IdStr
  brand : Option PyStr
  mainId : Option PyStr
  barcode : Option PyStr
  quantity : ℚ
  alert : Bool
  note : List NoteMsg
deriving DecidableEq, Repr

/-- A `warehouse.unpublished.products` record
(`warehouse_unpublished_products.py`), as created at lines 404-414. -/
structure UnpublishedEntry where
  sku : IdStr
  brand : PyStr
  mainId : Option PyStr
  barcode : Option PyStr
  quantity : ℚ
  missingFields : PyStr
  syncDate : ℤ
  note : List NoteMsg
deriving DecidableEq, Repr

/-- Status selection of `warehouse.missing.products`
(`warehouse_missing_products.py` lines 75-79). -/
inductive MStatus where
  | missing
  | created
  | ignored
deriving DecidableEq, Repr

/-- A `warehouse.missing.products` record
(`warehouse_missing_products.py` lines 63-81).  Dates are modelled as
integer timestamps in seconds; `createDate` is Odoo's automatic
`create_date`. -/
structure MissingRecord where
  sku : IdStr
  mainId : Option PyStr
  barcode : Option PyStr
  quantity : ℚ
  brand : Option PyStr
  createDate : ℤ
  syncDate : ℤ
  status : MStatus
  note : List NoteMsg
deriving DecidableEq, Repr

/-- The result of the api-lookup block of `_process_single_product`
(lines 274-284): the resolved feed entry and the `processed_sku` reported
for missing-product exclusion. -/
def lookupApiData (nsku nbar : Option PyStr) (bySku byBarcode : List (PyStr × ApiEntry)) :
    Option ApiEntry × Option PyStr :=
  let first : Option ApiEntry × Option PyStr :=
    match nsku with
    | some k =>
      match bySku.lookup k with
      | some e => (some e, some k)
      | none => (none, none)
    | none => (none, none)
  match first.1 with
  | some _ => first
  | none =>
    match nbar with
    | some b =>
      match byBarcode.lookup b with
      | some e => (some e, e.normalizedSku)
      | none => (none, none)
    | none => (none, none)

/-- The outcome of `_process_single_product` for one product: the
`processed_sku` return value, the mutated product, the created sync-log
entry, and the unpublished-product entries created (empty or a
singleton). -/
structure SingleResult where
  processedSku : Option PyStr
  product : ProductT
  log : SyncLogEntry
  unpub : List UnpublishedEntry
deriving DecidableEq, Repr

/-- `_handle_product_publishing` (lines 380-414): recompute the publish
flag from scratch and log an unpublished-product entry when it is false.
The product template always exists, so the `if not template: return`
guard (line 383-384) does not fire. -/
def handleProductPublishing (p : ProductT) (hasSku hasBarcode : Bool)
    (apiData : Option ApiEntry) (qty : ℚ) (now : ℤ) : ProductT × List UnpublishedEntry :=
  let publish := hasSku && hasBarcode
  let p1 := { p with websitePublished := publish }
  if publish then (p1, [])
  else
    let missingFields : PyStr :=
      if !hasSku && !hasBarcode then "SKU and barcode".toList
      else if !hasSku then "SKU".toList
      else "barcode".toList
    let entry : UnpublishedEntry :=
      { sku :=
          match p.defaultCode with
          | some d => if d ≠ [] then .str d else .noSkuTag p.pid
          | none => .noSkuTag p.pid
        brand :=
          match apiData with
          | some e => e.brand
          | none =>
            match p.templateBrand with
            | some b => if b ≠ [] then b else "Unknown".toList
            | none => "Unknown".toList
        mainId := apiData.map (·.extId)
        barcode :=
          match p.barcode with
          | some b => if b ≠ [] ∧ pyLower b ≠ "none".toList then some b else none
          | none => none
        quantity := if apiData.isSome then qty else 0
        missingFields := missingFields
        syncDate := now
        note := [.unpublishedReason (!hasSku) (!hasBarcode)
                  (if apiData.isSome then some qty else none)] }
    (p1, [entry])

/-- `_process_single_product` (lines 256-357). -/
def processSingleProduct (p : ProductT) (bySku byBarcode : List (PyStr × ApiEntry))
    (now : ℤ) : SingleResult :=
  let hasSku := hasValidIdentifier p.defaultCode
  let hasBarcode := hasValidIdentifier p.barcode
  let sku := sanitizeIdentifier p.defaultCode
  let barcode := sanitizeIdentifier p.barcode
  let normalizedSku := normalizeIdentifierRaw sku
  let normalizedBarcode := normalizeIdentifierRaw barcode
  let shouldProcess := hasSku || hasBarcode
  let isStockable := isStockableProduct p
  let looked := lookupApiData normalizedSku normalizedBarcode bySku byBarcode
  let apiData := looked.1
  let processedSku := looked.2
  let qty := (apiData.map (·.qty)).getD 0
  let extId := apiData.map (·.extId)
  let apiBrand := apiData.map (·.brand)
  let newQty := quantityTier qty p.qtyAvailable
  let odooQty := p.qtyAvailable
  let alert := decide (newQty < 5)
  let logSku : IdStr := if sku ≠ [] then .str sku else .noSkuTag p.pid
  let logBarcode :=
    if barcode ≠ [] ∧ pyLower barcode ≠ "none".toList then some barcode else none
  let logExtId := extId.bind (fun e => if e ≠ [] then some e else none)
  let logNote : List NoteMsg :=
    if !shouldProcess then [.skippedMissingIds]
    else
      let base : NoteMsg :=
        if apiData.isNone then .noApiMatch
        else if alert then .lowStock
        else if newQty ≠ odooQty then .stockUpdated odooQty newQty
        else .stockOk
      if apiData.isSome && !(hasSku && hasBarcode) then
        [base, .missingSuffix (!hasSku) (!hasBarcode)]
      else [base]
  let log : SyncLogEntry :=
    { sku := logSku, brand := apiBrand, mainId := logExtId, barcode := logBarcode
      quantity := newQty, alert := alert, note := logNote }
  let p1 :=
    if shouldProcess && isStockable && decide (newQty ≠ odooQty) then
      { p with qtyAvailable := newQty }
    else p
  let published := handleProductPublishing p1 hasSku hasBarcode apiData qty now
  { processedSku := processedSku, product := published.1, log := log
    unpub := published.2 }

/-! ## Missing-product guard (`warehouse_missing_products.py`) -/

/-- `WarehouseMissingProducts._sv_norm_sku` (lines 12-17):
`re.sub(r'[^0-9A-Za-z]+', '', s).upper()`; the regex class coincides with
`Char.isAlphanum`. -/
def svNormSku (s : PyStr) : PyStr := pyUpper (filterAlnum s)

/-- Odoo `('field', 'ilike', pattern)`: case-insensitive substring match;
a null field never matches. -/
def pyIlike (field : Option PyStr) (pattern : PyStr) : Bool :=
  match field with
  | none => false
  | some f => decide (pyLower pattern <:+: pyLower f)

/-- A `product.template` as seen by the guard's fallback search
(lines 46-54): its `default_code` and its variant ids
(`product_variant_id` is the first of `product_variant_ids`). -/
structure InvTemplate where
  defaultCode : Option PyStr
  variantIds : List Nat
deriving DecidableEq, Repr

/-- `WarehouseMissingProducts._sv_find_product_by_sku_only_relaxed`
(lines 19-61): candidate narrowing by `ilike` on the first and last four
characters of the normalized target (`limit=200`), exact comparison of
normalized SKUs on candidates, template fallback, then a direct
non-normalized equality fallback.  Returns the id of the matched product,
`none` standing for the empty recordset. -/
def svFindProductBySkuOnlyRelaxed (products : List ProductT)
    (templates : List InvTemplate) (apiSku : PyStr) : Option Nat :=
  let normTarget := svNormSku apiSku
  if normTarget = [] then none
  else
    let hd := normTarget.take 4
    let tl := normTarget.drop (normTarget.length - 4)
    let candidates :=
      (products.filter (fun p => pyIlike p.defaultCode hd && pyIlike p.defaultCode tl)).take 200
    match candidates.find? (fun p => svNormSku (p.defaultCode.getD []) = normTarget) with
    | some p => some p.pid
    | none =>
      let tmplCandidates :=
        (templates.filter (fun t => pyIlike t.defaultCode hd && pyIlike t.defaultCode tl)).take 200
      match tmplCandidates.find? (fun t => svNormSku (t.defaultCode.getD []) = normTarget) with
      | some t => t.variantIds.head?
      | none =>
        match products.find? (fun p => p.defaultCode = some apiSku) with
        | some p => some p.pid
        | none => none

/-- The `vals` dictionary handed to `WarehouseMissingProducts.create` by
`_process_missing_products` (lines 471-479). -/
structure MissingVals where
  sku : IdStr
  mainId : Option PyStr
  barcode : Option PyStr
  quantity : ℚ
  brand : Option PyStr
  syncDate : ℤ
  note : List NoteMsg
deriving DecidableEq, Repr

/-- The overridden `WarehouseMissingProducts.create` (lines 84-109) for a
single vals dictionary: apply the relaxed-match guard and force
`status = 'ignored'` with an audit note when an inventory product matches;
otherwise the selection default `status = 'missing'` applies. -/
def missingCreate (products : List ProductT) (templates : List InvTemplate)
    (now : ℤ) (v : MissingVals) : MissingRecord :=
  let apiSku := idStrToPyStr v.sku
  match svFindProductBySkuOnlyRelaxed products templates apiSku with
  | some pid =>
    { sku := v.sku, mainId := v.mainId, barcode := v.barcode, quantity := v.quantity
      brand := v.brand, createDate := now, syncDate := v.syncDate
      status := .ignored, note := v.note ++ [.ignoredMatch pid] }
  | none =>
    { sku := v.sku, mainId := v.mainId, barcode := v.barcode, quantity := v.quantity
      brand := v.brand, createDate := now, syncDate := v.syncDate
      status := .missing, note := v.note }

/-! ## Missing-product resolver (`_process_missing_products`, lines 416-488) -/

/-- The `warehouse.sync.panel` configuration the engine reads
(lines 420-426). -/
structure PanelConfig where
  filterMissingProducts : Bool
  allowedPrefixes : Option PyStr
deriving DecidableEq, Repr

/-- `[p.strip() for p in allowed_prefixes.split(',') if p.strip()]`
(line 426). -/
def parsePrefixes (s : PyStr) : List PyStr :=
  ((s.splitOn ',').map pyStrip).filter (· ≠ [])

/-- Update the newest `missing`-status record with the given `sku` in
place (`existing.write`, lines 463-468): Odoo's search under the model's
`_order = 'create_date desc'` with `limit=1` selects the newest matching
record; records are appended in creation order, so the newest match is the
last one. -/
def updateFirstMissing (k : IdStr) (now : ℤ) (q : ℚ) :
    List MissingRecord → List MissingRecord
  | [] => []
  | r :: rs =>
    if r.sku = k ∧ r.status = .missing then
      { r with syncDate := now, quantity := q, note := [.stillMissing q] } :: rs
    else r :: updateFirstMissing k now q rs

def updateNewestMissing (k : IdStr) (now : ℤ) (q : ℚ) (recs : List MissingRecord) :
    List MissingRecord :=
  (updateFirstMissing k now q recs.reverse).reverse

/-- The search key `sku.strip() if sku else f"UNKNOWN_SKU_{normalized_sku}"`
used at lines 458 and 472 for one feed-index entry. -/
def searchSkuOf (kv : PyStr × ApiEntry) : IdStr :=
  if kv.2.sku ≠ [] then .str (pyStrip kv.2.sku) else .unknownSkuTag kv.1

/-- The `vals` dictionary built for a new missing-product record
(lines 471-479). -/
def mkMissingVals (now : ℤ) (kv : PyStr × ApiEntry) : MissingVals :=
  { sku := searchSkuOf kv
    mainId := if kv.2.extId ≠ [] then some kv.2.extId else none
    barcode := kv.2.barcode.bind
      (fun b => if b ≠ [] ∧ pyLower b ≠ "none".toList then some b else none)
    quantity := kv.2.qty
    brand := if kv.2.brand ≠ [] ∧ pyLower kv.2.brand ≠ "none".toList
      then some kv.2.brand else none
    syncDate := now
    note := [.foundInApiMissing kv.2.qty] }

/-- The per-feed-record body of `_process_missing_products`
(lines 439-480). -/
def missingStep (filterEnabled : Bool) (prefixes : List PyStr)
    (products : List ProductT) (templates : List InvTemplate) (now : ℤ)
    (processedSkus : List PyStr) (recs : List MissingRecord)
    (kv : PyStr × ApiEntry) : List MissingRecord :=
  if kv.1 ∈ processedSkus then recs
  else
    if filterEnabled ∧ prefixes ≠ [] ∧
        ¬(kv.2.sku ≠ [] ∧ prefixes.any (fun pre => pre.isPrefixOf kv.2.sku)) then recs
    else
      if recs.any (fun r => r.sku = searchSkuOf kv && r.status = .missing) then
        updateNewestMissing (searchSkuOf kv) now kv.2.qty recs
      else
        recs ++ [missingCreate products templates now (mkMissingVals now kv)]

/-- The `filter_enabled` flag read at lines 420-421 (`False` when there is
no panel record). -/
def panelFilterEnabled (cfg : Option PanelConfig) : Bool :=
  match cfg with
  | some c => c.filterMissingProducts
  | none => false

/-- The `allowed_prefixes` list parsed at lines 424-426. -/
def panelPrefixes (cfg : Option PanelConfig) : List PyStr :=
  match cfg with
  | some c =>
    if panelFilterEnabled cfg then
      match c.allowedPrefixes with
      | some s => if s ≠ [] then parsePrefixes s else []
      | none => []
    else []
  | none => []

/-- `_process_missing_products` (lines 416-488): walk the by-SKU feed
index in order, skipping matched and prefix-filtered records, updating the
existing `missing` record in place or creating a new record through the
guarded `create`. -/
def processMissingProducts (cfg : Option PanelConfig) (products : List ProductT)
    (templates : List InvTemplate) (now : ℤ) (bySku : List (PyStr × ApiEntry))
    (processedSkus : List PyStr) (recs : List MissingRecord) : List MissingRecord :=
  bySku.foldl
    (missingStep (panelFilterEnabled cfg) (panelPrefixes cfg) products templates now
      processedSkus) recs

/-! ## Chunked driver and run orchestration -/

/-- The whole persistent state the engine reads and writes: the inventory
products (as returned by the type search of line 127) and the three
record stores. -/
structure EngineState where
  products : List ProductT
  syncLogs : List SyncLogEntry
  unpub : List UnpublishedEntry
  missing : List MissingRecord
deriving DecidableEq, Repr

/-- `timedelta(days=1)` in seconds (line 702). -/
def oneDaySeconds : ℤ := 86400

/-- `_clear_previous_logs` (lines 691-720): delete all sync logs, delete
the missing-product records whose `create_date` is older than one day, and
delete all unpublished-product records. -/
def clearPreviousLogs (now : ℤ) (st : EngineState) : EngineState :=
  { st with
      syncLogs := []
      missing := st.missing.filter (fun r => ¬ r.createDate < now - oneDaySeconds)
      unpub := [] }

/-- Python `set.add`. -/
def setAdd (s : PyStr) (set : List PyStr) : List PyStr :=
  if s ∈ set then set else set ++ [s]

/-- Python `set.update`. -/
def setUnion (base add : List PyStr) : List PyStr :=
  add.foldl (fun acc s => setAdd s acc) base

/-- The values accumulated by `_process_product_chunk` (lines 234-254)
plus the per-item record creations and product mutations it performs. -/
structure ChunkResult where
  processedCount : Nat
  processedSkus : List PyStr
  products : List ProductT
  logs : List SyncLogEntry
  unpub : List UnpublishedEntry
deriving DecidableEq, Repr

/-- The loop body of `_process_product_chunk` (lines 242-252).  `throws`
is the oracle saying which items raise during `_process_single_product`;
such an exception is caught by the per-item handler (lines 250-252), which
skips the item (its count is not incremented, its effects are not applied)
and continues with the next item of the same chunk. -/
def chunkStep (throws : ProductT → Bool) (bySku byBarcode : List (PyStr × ApiEntry))
    (now : ℤ) (acc : ChunkResult) (p : ProductT) : ChunkResult :=
  if throws p then { acc with products := acc.products ++ [p] }
  else
    let r := processSingleProduct p bySku byBarcode now
    { processedCount := acc.processedCount + 1
      processedSkus :=
        match r.processedSku with
        | some s => setAdd s acc.processedSkus
        | none => acc.processedSkus
      products := acc.products ++ [r.product]
      logs := acc.logs ++ [r.log]
      unpub := acc.unpub ++ r.unpub }

/-- `_process_product_chunk` (lines 234-254). -/
def processProductChunk (throws : ProductT → Bool) (products : List ProductT)
    (bySku byBarcode : List (PyStr × ApiEntry)) (now : ℤ) : ChunkResult :=
  products.foldl (chunkStep throws bySku byBarcode now) ⟨0, [], [], [], []⟩

/-- The chunk-size auto-adjustment of `sync_products_chunked`
(lines 130-136). -/
def adjustChunkSize (total chunkSize : Nat) : Nat :=
  if total > 8000 then min chunkSize 80
  else if total > 5000 then min chunkSize 100
  else chunkSize

/-- Structural worker for `chunksOf`; the fuel starts at the list length,
which suffices because every step drops at least one element when the
chunk size is positive. -/
def chunksOfGo (n : Nat) : Nat → List ProductT → List (List ProductT)
  | _, [] => []
  | 0, _ => []
  | fuel + 1, l => l.take n :: chunksOfGo n fuel (l.drop n)

/-- `all_products[i:i+chunk_size]` for `i in range(0, total, chunk_size)`
(lines 145-146); a zero step would be a Python `ValueError`, and the
engine's chunk sizes are always positive. -/
def chunksOf (n : Nat) (l : List ProductT) : List (List ProductT) :=
  if n = 0 then [] else chunksOfGo n l.length l

/-- What `sync_products_chunked` produces: the final state and the local
`processed` / `failed` counters and `processed_skus` set (lines 140-142). -/
structure DriverResult where
  state : EngineState
  processed : Nat
  failed : Nat
  processedSkus : List PyStr
deriving DecidableEq, Repr

/-- Accumulator of the chunk loop (lines 145-177). -/
structure ChunksAcc where
  processed : Nat
  failed : Nat
  processedSkus : List PyStr
  products : List ProductT
  logs : List SyncLogEntry
  unpub : List UnpublishedEntry
deriving DecidableEq, Repr

/-- One iteration of the chunk loop (lines 152-177): the `try` body always
completes because `_process_product_chunk` traps every per-item exception
itself (lines 250-252), so the `except` branch that would add
`len(chunk)` to `failed` (lines 173-177) is never entered and `failed`
is carried over unchanged. -/
def driverChunkStep (throws : ProductT → Bool) (bySku byBarcode : List (PyStr × ApiEntry))
    (now : ℤ) (acc : ChunksAcc) (chunk : List ProductT) : ChunksAcc :=
  let r := processProductChunk throws chunk bySku byBarcode now
  { processed := acc.processed + r.processedCount
    failed := acc.failed
    processedSkus := setUnion acc.processedSkus r.processedSkus
    products := acc.products ++ r.products
    logs := acc.logs ++ r.logs
    unpub := acc.unpub ++ r.unpub }

/-- `sync_products_chunked` (lines 112-182): fetch the feed (aborting by
returning when it fails, lines 121-124), process the inventory in chunks,
then run the missing-product resolver.  The chunk-level exception handler
(lines 173-177, `failed += len(chunk)`) is unreachable for item-processing
failures because `_process_product_chunk` catches every per-item exception
itself (lines 250-252), so `failed` is only ever carried over. -/
def syncProductsChunked (resp : FetchResponse) (throws : ProductT → Bool)
    (cfg : Option PanelConfig) (templates : List InvTemplate) (now : ℤ)
    (chunkSize : Nat) (st : EngineState) : DriverResult :=
  match fetchApiData resp with
  | none => { state := st, processed := 0, failed := 0, processedSkus := [] }
  | some api =>
    let total := st.products.length
    let cs := adjustChunkSize total chunkSize
    let chunks := chunksOf cs st.products
    let folded : ChunksAcc :=
      chunks.foldl (driverChunkStep throws api.bySku api.byBarcode now) ⟨0, 0, [], [], [], []⟩
    let missing1 := processMissingProducts cfg folded.products templates now
      api.bySku folded.processedSkus st.missing
    { state :=
        { products := folded.products
          syncLogs := st.syncLogs ++ folded.logs
          unpub := st.unpub ++ folded.unpub
          missing := missing1 }
      processed := folded.processed
      failed := folded.failed
      processedSkus := folded.processedSkus }

/-- `run_sync` (lines 78-110): clear previous logs, run the chunked sync,
and record one run-level summary.  No failure modelled here raises out of
`sync_products_chunked` — a failed feed fetch returns `None` and the sync
returns early (lines 122-124, 227-232) — so the `except` branch of
`run_sync` (lines 93-96) is not reached and the summary always carries
`status = 'success'` (lines 91-92, 99-107). -/
def runSync (resp : FetchResponse) (throws : ProductT → Bool)
    (cfg : Option PanelConfig) (templates : List InvTemplate) (now : ℤ)
    (st : EngineState) : EngineState :=
  let st1 := clearPreviousLogs now st
  let d := syncProductsChunked resp throws cfg templates now 100 st1
  let summary : SyncLogEntry :=
    { sku := .str "SYSTEM".toList, brand := some "SyncVision".toList
      mainId := none, barcode := none, quantity := 0, alert := false
      note := [.syncSummary "success".toList "Sync successful".toList] }
  { d.state with syncLogs := d.state.syncLogs ++ [summary] }

/-- Number of records currently in `missing` status. -/
def countMissing (recs : List MissingRecord) : Nat :=
  (recs.filter (fun r => decide (r.status = .missing))).length

/-! ## Concrete fixtures for evaluating the engine on explicit inputs -/

/-- An inventory product whose raw SKU is `"AB100"`. -/
def prodAB100 : ProductT :=
  { pid := 2, defaultCode := some "AB100".toList, barcode := none, qtyAvailable := 0
    prodType := "product".toList, detailedType := none, websitePublished := false
    templateBrand := none }

/-- An inventory product whose raw SKU is `"A-B-1-0-0"`: its relaxed
normalisation is `"AB100"`, but the raw string does not contain the
substrings `"AB10"` or `"B100"`. -/
def prodPunct : ProductT :=
  { pid := 1, defaultCode := some "A-B-1-0-0".toList, barcode := none, qtyAvailable := 0
    prodType := "product".toList, detailedType := none, websitePublished := false
    templateBrand := none }

/-- A feed index entry for raw SKU `"AB-100"` (normalized `"AB100"`). -/
def entryAB : ApiEntry :=
  { extId := [], qty := 7, sku := "AB-100".toList, barcode := none, brand := []
    normalizedSku := some "AB100".toList }

/-- A minimal inventory product with no identifiers, used to populate a
chunk of a given size. -/
def mkPlainProduct (i : Nat) : ProductT :=
  { pid := i, defaultCode := none, barcode := none, qtyAvailable := 0
    prodType := "consu".toList, detailedType := none, websitePublished := true
    templateBrand := none }

/-- An engine state with one product, one leftover sync log and no
exception records. -/
def stateC1 : EngineState :=
  { products := [prodAB100]
    syncLogs := [⟨.str "X".toList, none, none, none, 3, true, []⟩]
    unpub := [], missing := [] }

/-- An engine state holding one chunk's worth of 100 plain products. -/
def state100 : EngineState :=
  { products := (List.range 100).map mkPlainProduct
    syncLogs := [], unpub := [], missing := [] }

/-- A missing-product record that left `missing` status (it was `created`)
whose `create_date` is more than one day old at time `200000`. -/
def oldCreatedRec : MissingRecord :=
  { sku := .str "OLD1".toList, mainId := none, barcode := none, quantity := 3
    brand := none, createDate := 0, syncDate := 0, status := .created, note := [] }

end SyncVision

namespace SyncVision

/-! # Theorems -/

/-! ## Character-level facts about the ASCII case and class primitives -/

theorem char_toNat_ofNat (n : Nat) (h : n.isValidChar) : (Char.ofNat n).toNat = n := by
  simp only [Char.ofNat, dif_pos h, Char.ofNatAux, Char.toNat]
  simp [UInt32.toNat, BitVec.toNat_ofNatLt]

theorem char_eq_of_toNat_eq {c d : Char} (h : c.toNat = d.toNat) : c = d := by
  apply Char.eq_of_val_eq
  apply UInt32.eq_of_toBitVec_eq
  exact BitVec.eq_of_toNat_eq h

theorem char_isUpper_iff (c : Char) : c.isUpper = true ↔ 65 ≤ c.toNat ∧ c.toNat ≤ 90 := by
  simp only [Char.isUpper, Bool.and_eq_true, decide_eq_true_eq, ge_iff_le]
  constructor
  · rintro ⟨h1, h2⟩
    rw [UInt32.le_def, BitVec.le_def] at h1 h2
    norm_num [Char.toNat, UInt32.toNat] at h1 h2 ⊢
    omega
  · rintro ⟨h1, h2⟩
    rw [UInt32.le_def, BitVec.le_def, UInt32.le_def, BitVec.le_def]
    norm_num [Char.toNat, UInt32.toNat] at h1 h2 ⊢
    omega

theorem char_isLower_iff (c : Char) : c.isLower = true ↔ 97 ≤ c.toNat ∧ c.toNat ≤ 122 := by
  simp only [Char.isLower, Bool.and_eq_true, decide_eq_true_eq, ge_iff_le]
  constructor
  · rintro ⟨h1, h2⟩
    rw [UInt32.le_def, BitVec.le_def] at h1 h2
    norm_num [Char.toNat, UInt32.toNat] at h1 h2 ⊢
    omega
  · rintro ⟨h1, h2⟩
    rw [UInt32.le_def, BitVec.le_def, UInt32.le_def, BitVec.le_def]
    norm_num [Char.toNat, UInt32.toNat] at h1 h2 ⊢
    omega

theorem char_isDigit_iff (c : Char) : c.isDigit = true ↔ 48 ≤ c.toNat ∧ c.toNat ≤ 57 := by
  simp only [Char.isDigit, Bool.and_eq_true, decide_eq_true_eq, ge_iff_le]
  constructor
  · rintro ⟨h1, h2⟩
    rw [UInt32.le_def, BitVec.le_def] at h1 h2
    norm_num [Char.toNat, UInt32.toNat] at h1 h2 ⊢
    omega
  · rintro ⟨h1, h2⟩
    rw [UInt32.le_def, BitVec.le_def, UInt32.le_def, BitVec.le_def]
    norm_num [Char.toNat, UInt32.toNat] at h1 h2 ⊢
    omega

theorem char_isAlphanum_iff (c : Char) :
    c.isAlphanum = true ↔
      (65 ≤ c.toNat ∧ c.toNat ≤ 90) ∨ (97 ≤ c.toNat ∧ c.toNat ≤ 122) ∨
        (48 ≤ c.toNat ∧ c.toNat ≤ 57) := by
  simp only [Char.isAlphanum, Char.isAlpha, Bool.or_eq_true, char_isUpper_iff,
    char_isLower_iff, char_isDigit_iff, or_assoc]

theorem char_isWhitespace_iff (c : Char) :
    c.isWhitespace = true ↔
      c.toNat = 32 ∨ c.toNat = 9 ∨ c.toNat = 13 ∨ c.toNat = 10 := by
  simp only [Char.isWhitespace, Bool.or_eq_true, decide_eq_true_eq, or_assoc]
  constructor
  · rintro (h | h | h | h) <;> subst h <;> decide
  · rintro (h | h | h | h)
    · exact Or.inl (char_eq_of_toNat_eq (by simpa [Char.toNat] using h))
    · exact Or.inr (Or.inl (char_eq_of_toNat_eq (by simpa [Char.toNat] using h)))
    · exact Or.inr (Or.inr (Or.inl (char_eq_of_toNat_eq (by simpa [Char.toNat] using h))))
    · exact Or.inr (Or.inr (Or.inr (char_eq_of_toNat_eq (by simpa [Char.toNat] using h))))

theorem char_toNat_toUpper (c : Char) :
    c.toUpper.toNat = if 97 ≤ c.toNat ∧ c.toNat ≤ 122 then c.toNat - 32 else c.toNat := by
  by_cases h : 97 ≤ c.toNat ∧ c.toNat ≤ 122
  · rw [if_pos h]
    show (if c.toNat ≥ 97 ∧ c.toNat ≤ 122 then Char.ofNat (c.toNat - 32) else c).toNat = _
    rw [if_pos h]
    exact char_toNat_ofNat _ (Or.inl (by omega))
  · rw [if_neg h]
    show (if c.toNat ≥ 97 ∧ c.toNat ≤ 122 then Char.ofNat (c.toNat - 32) else c).toNat = _
    rw [if_neg h]

theorem char_toNat_toLower (c : Char) :
    c.toLower.toNat = if 65 ≤ c.toNat ∧ c.toNat ≤ 90 then c.toNat + 32 else c.toNat := by
  by_cases h : 65 ≤ c.toNat ∧ c.toNat ≤ 90
  · rw [if_pos h]
    show (if c.toNat ≥ 65 ∧ c.toNat ≤ 90 then Char.ofNat (c.toNat + 32) else c).toNat = _
    rw [if_pos h]
    exact char_toNat_ofNat _ (Or.inl (by omega))
  · rw [if_neg h]
    show (if c.toNat ≥ 65 ∧ c.toNat ≤ 90 then Char.ofNat (c.toNat + 32) else c).toNat = _
    rw [if_neg h]

theorem char_toUpper_toUpper (c : Char) : c.toUpper.toUpper = c.toUpper := by
  apply char_eq_of_toNat_eq
  rw [char_toNat_toUpper c.toUpper, char_toNat_toUpper c]
  split_ifs <;> omega

theorem char_toUpper_toLower (c : Char) : c.toLower.toUpper = c.toUpper := by
  apply char_eq_of_toNat_eq
  rw [char_toNat_toUpper c.toLower, char_toNat_toLower c, char_toNat_toUpper c]
  split_ifs <;> omega

theorem char_isAlphanum_toUpper (c : Char) (h : c.isAlphanum = true) :
    c.toUpper.isAlphanum = true := by
  rw [char_isAlphanum_iff] at h ⊢
  rw [char_toNat_toUpper]
  split_ifs <;> omega

theorem char_not_whitespace_of_alnum (c : Char) (h : c.isAlphanum = true) :
    c.isWhitespace = false := by
  rw [char_isAlphanum_iff] at h
  rw [← Bool.not_eq_true, char_isWhitespace_iff]
  omega

theorem char_not_alnum_of_whitespace (c : Char) (h : c.isWhitespace = true) :
    c.isAlphanum = false := by
  rw [char_isWhitespace_iff] at h
  rw [← Bool.not_eq_true, char_isAlphanum_iff]
  omega

/-! ## List-level facts about trimming and filtering -/

theorem dropWhile_eq_self_of_all {p : Char → Bool} {l : List Char}
    (h : ∀ c ∈ l, p c = false) : l.dropWhile p = l := by
  cases l with
  | nil => rfl
  | cons a t =>
    rw [List.dropWhile_cons, if_neg]
    simp [h a (List.mem_cons_self a t)]

theorem filter_dropWhile {p q : Char → Bool} (hpq : ∀ a, p a = true → q a = false)
    (l : List Char) : (l.dropWhile p).filter q = l.filter q := by
  induction l with
  | nil => rfl
  | cons a t ih =>
    by_cases h : p a = true
    · rw [List.dropWhile_cons, if_pos h, ih, List.filter_cons]
      simp [hpq a h]
    · rw [List.dropWhile_cons, if_neg h]

theorem trimRight_idem (l : PyStr) : trimRight (trimRight l) = trimRight l := by
  unfold trimRight
  rw [List.reverse_reverse, List.dropWhile_idempotent]

theorem trimRight_cons_not_ws {a : Char} (t : List Char) (ha : a.isWhitespace = false) :
    ∃ r, trimRight (a :: t) = a :: r := by
  unfold trimRight
  rw [List.reverse_cons, List.dropWhile_append]
  by_cases h : (t.reverse.dropWhile Char.isWhitespace).isEmpty = true
  · rw [if_pos h]
    exact ⟨[], by simp [List.dropWhile_cons, ha]⟩
  · rw [if_neg h]
    exact ⟨(t.reverse.dropWhile Char.isWhitespace).reverse, by simp⟩

theorem trimLeft_trimRight_trimLeft (l : PyStr) :
    trimLeft (trimRight (trimLeft l)) = trimRight (trimLeft l) := by
  cases hm : trimLeft l with
  | nil => rfl
  | cons a t =>
    have hpa : a.isWhitespace = false := by
      have h := List.head?_dropWhile_not Char.isWhitespace l
      unfold trimLeft at hm
      rw [hm] at h
      simpa using h
    obtain ⟨r, hr⟩ := trimRight_cons_not_ws t hpa
    rw [hr]
    unfold trimLeft
    rw [List.dropWhile_cons, if_neg (by simp [hpa])]

theorem pyStrip_idem (l : PyStr) : pyStrip (pyStrip l) = pyStrip l := by
  show trimRight (trimLeft (trimRight (trimLeft l))) = trimRight (trimLeft l)
  rw [trimLeft_trimRight_trimLeft, trimRight_idem]

theorem pyStrip_eq_self_of_no_ws {l : PyStr} (h : ∀ c ∈ l, c.isWhitespace = false) :
    pyStrip l = l := by
  show trimRight (trimLeft l) = l
  unfold trimLeft trimRight
  rw [dropWhile_eq_self_of_all h,
    dropWhile_eq_self_of_all (fun c hc => h c (List.mem_reverse.mp hc)),
    List.reverse_reverse]

theorem filterAlnum_trimLeft (l : PyStr) : filterAlnum (trimLeft l) = filterAlnum l :=
  filter_dropWhile (fun a ha => char_not_alnum_of_whitespace a ha) l

theorem filterAlnum_trimRight (l : PyStr) : filterAlnum (trimRight l) = filterAlnum l := by
  show (trimRight l).filter Char.isAlphanum = l.filter Char.isAlphanum
  unfold trimRight
  rw [List.filter_reverse, filter_dropWhile (fun a ha => char_not_alnum_of_whitespace a ha),
    ← List.filter_reverse, List.reverse_reverse]

theorem filterAlnum_pyStrip (l : PyStr) : filterAlnum (pyStrip l) = filterAlnum l := by
  show filterAlnum (trimRight (trimLeft l)) = _
  rw [filterAlnum_trimRight, filterAlnum_trimLeft]

end SyncVision

namespace SyncVision

/-! ## Normalizer lemmas -/

theorem normalizeIdentifierRaw_eq_core {v : PyStr}
    (h : pyLower (pyStrip v) ≠ "none".toList) :
    normalizeIdentifierRaw v =
      (if filterAlnum v = [] then none else some (pyUpper (filterAlnum v))) := by
  unfold normalizeIdentifierRaw
  by_cases h0 : v = []
  · subst h0
    simp [filterAlnum]
  · rw [if_neg h0]
    by_cases h1 : pyStrip v = []
    · rw [if_pos h1]
      have : filterAlnum v = [] := by
        rw [← filterAlnum_pyStrip, h1]; rfl
      rw [if_pos this]
    · rw [if_neg h1, if_neg h, filterAlnum_pyStrip]

theorem sanitize_some_eq (v : PyStr) :
    sanitizeIdentifier (some v) =
      if pyStrip v = [] ∨ pyLower (pyStrip v) ∈ placeholders then [] else pyStrip v := by
  unfold sanitizeIdentifier
  by_cases h1 : pyStrip v = []
  · simp [h1]
  · by_cases h2 : pyLower (pyStrip v) ∈ placeholders <;> simp [h1, h2]

theorem normalizeId_some_eq_core {v : PyStr}
    (h : pyLower (pyStrip v) ∉ placeholders) :
    normalizeId (some v) =
      (if filterAlnum v = [] then none else some (pyUpper (filterAlnum v))) := by
  unfold normalizeId
  rw [sanitize_some_eq]
  by_cases h1 : pyStrip v = []
  · rw [if_pos (Or.inl h1)]
    have : filterAlnum v = [] := by rw [← filterAlnum_pyStrip, h1]; rfl
    rw [if_pos this]
    rfl
  · rw [if_neg (by tauto)]
    have hnone : pyLower (pyStrip (pyStrip v)) ≠ "none".toList := by
      rw [pyStrip_idem]
      intro hc
      exact h (by rw [hc]; simp [placeholders])
    rw [normalizeIdentifierRaw_eq_core hnone, filterAlnum_pyStrip]

theorem normalizeId_some_shape {x : Option PyStr} {s : PyStr}
    (h : normalizeId x = some s) : ∃ m, filterAlnum m ≠ [] ∧ s = pyUpper (filterAlnum m) := by
  simp only [normalizeId, normalizeIdentifierRaw] at h
  split_ifs at h with h1 h2 h3 h4
  exact ⟨pyStrip (sanitizeIdentifier x), h4, (Option.some_injective _ h).symm⟩

theorem mem_upper_filter_props {l : PyStr} {c : Char}
    (hc : c ∈ pyUpper (filterAlnum l)) : c.isAlphanum = true ∧ c.toUpper = c := by
  simp only [pyUpper, List.mem_map, filterAlnum, List.mem_filter] at hc
  obtain ⟨d, ⟨-, hd⟩, rfl⟩ := hc
  exact ⟨char_isAlphanum_toUpper d hd, char_toUpper_toUpper d⟩

end SyncVision

namespace SyncVision

theorem normalizeId_props {x : Option PyStr} {s : PyStr} (h : normalizeId x = some s) :
    (∀ c ∈ s, c.isAlphanum = true ∧ c.toUpper = c) ∧ s ≠ [] := by
  obtain ⟨m, hm, rfl⟩ := normalizeId_some_shape h
  refine ⟨fun c hc => mem_upper_filter_props hc, ?_⟩
  simp [pyUpper, hm]

/-- Claim C7, amended.  The claim as stated is false (see
`C7_counterexample`: an input whose punctuation-stripped upper-casing is
`"NONE"` normalizes to `"NONE"`, which re-normalizes to null, and the
punctuation-only pair `"N.A."` / `"N/A"` normalize differently).  Amended:
normalize is idempotent whenever its output is not one of the uppercased
placeholder words `NONE`, `NULL`, `NA`; two inputs with the same
alphanumeric content up to case normalize identically provided neither
trims, case-insensitively, to a placeholder; and `"ABC-123"`, `"abc123"`
and `"ABC 123"` all normalize to `"ABC123"`. -/
theorem C7_normalize_idempotent_insensitive :
    (∀ x : Option PyStr,
      normalizeId x ≠ some "NONE".toList → normalizeId x ≠ some "NULL".toList →
      normalizeId x ≠ some "NA".toList →
      normalizeId (normalizeId x) = normalizeId x) ∧
    (∀ v w : PyStr,
      pyUpper (filterAlnum v) = pyUpper (filterAlnum w) →
      pyLower (pyStrip v) ∉ placeholders → pyLower (pyStrip w) ∉ placeholders →
      normalizeId (some v) = normalizeId (some w)) ∧
    (normalizeId (some "ABC-123".toList) = some "ABC123".toList ∧
      normalizeId (some "abc123".toList) = some "ABC123".toList ∧
      normalizeId (some "ABC 123".toList) = some "ABC123".toList) := by
  refine ⟨?_, ?_, by decide, by decide, by decide⟩
  · intro x h1 h2 h3
    cases hx : normalizeId x with
    | none => rfl
    | some s =>
      rw [hx] at h1 h2 h3
      obtain ⟨hprops, hne⟩ := normalizeId_props hx
      have hstrip : pyStrip s = s :=
        pyStrip_eq_self_of_no_ws (fun c hc => char_not_whitespace_of_alnum c (hprops c hc).1)
      have hfilter : filterAlnum s = s :=
        List.filter_eq_self.mpr (fun c hc => (hprops c hc).1)
      have hupper : pyUpper s = s := by
        unfold pyUpper
        conv_rhs => rw [← List.map_id s]
        exact List.map_eq_map_iff.mpr (fun c hc => (hprops c hc).2)
      have hlowup : pyUpper (pyLower s) = s := by
        unfold pyUpper pyLower
        rw [List.map_map]
        have hcomp : List.map (Char.toUpper ∘ Char.toLower) s = List.map Char.toUpper s :=
          List.map_eq_map_iff.mpr (fun c _ => char_toUpper_toLower c)
        rw [hcomp]
        exact hupper
      have hplh : pyLower s ∉ placeholders := by
        intro hmem
        simp only [placeholders, List.mem_cons, List.not_mem_nil, or_false] at hmem
        rcases hmem with hw | hw | hw | hw
        · apply h1
          have hs := hlowup
          rw [hw] at hs
          rw [← hs]
          decide
        · apply h2
          have hs := hlowup
          rw [hw] at hs
          rw [← hs]
          decide
        · have hs := hlowup
          rw [hw] at hs
          rw [← hs] at hfilter
          exact absurd hfilter (by decide)
        · apply h3
          have hs := hlowup
          rw [hw] at hs
          rw [← hs]
          decide
      rw [normalizeId_some_eq_core (by rw [hstrip]; exact hplh)]
      rw [hfilter, if_neg hne, hupper]
  · intro v w hcore hv hw
    rw [normalizeId_some_eq_core hv, normalizeId_some_eq_core hw]
    by_cases h : filterAlnum v = []
    · have h2 : filterAlnum w = [] := by
        rw [h] at hcore
        simpa [pyUpper] using hcore.symm
      rw [if_pos h, if_pos h2]
    · have h2 : filterAlnum w ≠ [] := by
        intro hc
        rw [hc] at hcore
        exact h (by simpa [pyUpper] using hcore)
      rw [if_neg h, if_neg h2, hcore]

theorem C7_witness :
    normalizeId (normalizeId (some "AB-12".toList)) = normalizeId (some "AB-12".toList) ∧
    normalizeId (some "AB-12".toList) = normalizeId (some "ab12".toList) :=
  ⟨C7_normalize_idempotent_insensitive.1 (some "AB-12".toList)
      (by decide) (by decide) (by decide),
    C7_normalize_idempotent_insensitive.2.1 "AB-12".toList "ab12".toList
      (by decide) (by decide) (by decide)⟩

theorem C7_counterexample :
    normalizeId (some "No-ne".toList) = some "NONE".toList ∧
    normalizeId (normalizeId (some "No-ne".toList)) = none ∧
    pyUpper (filterAlnum "N.A.".toList) = pyUpper (filterAlnum "N/A".toList) ∧
    normalizeId (some "N.A.".toList) = some "NA".toList ∧
    normalizeId (some "N/A".toList) = none :=
  ⟨by decide, by decide, by decide, by decide, by decide⟩

/-- Claim C8.  `normalize` (the composite
`_normalize_identifier(_sanitize_identifier(x))` used at every call site)
first applies sanitize — returning null for null input, whitespace-only
input, and the placeholders `none`/`null`/`n/a`/`na` compared
case-insensitively after trimming — and otherwise strips every
non-alphanumeric character, upper-cases the remainder, and returns null if
the stripped result is empty: it coincides with `normalizeSpec`, the
spec's own wording, on every input. -/
theorem C8_normalize_refines_spec (raw : Option PyStr) :
    normalizeId raw = normalizeSpec raw := by
  cases raw with
  | none => rfl
  | some v =>
    by_cases h2 : pyLower (pyStrip v) ∈ placeholders
    · have h1 : pyStrip v ≠ [] := by
        intro hc
        rw [hc] at h2
        exact absurd h2 (by decide)
      have hl : normalizeId (some v) = none := by
        unfold normalizeId
        rw [sanitize_some_eq, if_pos (Or.inr h2)]
        rfl
      rw [hl]
      simp only [normalizeSpec]
      rw [if_neg h1, if_pos h2]
    · by_cases h1 : pyStrip v = []
      · have hl : normalizeId (some v) = none := by
          unfold normalizeId
          rw [sanitize_some_eq, if_pos (Or.inl h1)]
          rfl
        rw [hl]
        simp only [normalizeSpec]
        rw [if_pos h1]
      · rw [normalizeId_some_eq_core h2]
        simp only [normalizeSpec]
        rw [if_neg h1, if_neg h2, filterAlnum_pyStrip]
        by_cases h3 : filterAlnum v = []
        · rw [if_pos h3, if_pos (by rw [h3]; rfl)]
        · rw [if_neg h3, if_neg (by simp [pyUpper, h3])]

end SyncVision

namespace SyncVision

/-- Claim C2.  For every raw feed quantity `q ≥ 0` the per-item quantity
tier follows the ordered decision list of lines 296-307: 0 if `q = 0`; 2
if `30 ≤ q ≤ 50`; 0 if `0 < q < 30`; 5 if `50 < q < 200`; 10 if
`q ≥ 200`.  The five guards are mutually exclusive and cover the whole
domain `q ≥ 0` (so the `else` fallback is unreachable there), and the
boundary table tier(0)=0, tier(29)=0, tier(30)=2, tier(50)=2, tier(51)=5,
tier(199)=5, tier(200)=10, tier(1000)=10 holds. -/
theorem C2_quantity_tier (q fb : ℚ) (h : 0 ≤ q) :
    (q = 0 → quantityTier q fb = 0) ∧
    (30 ≤ q ∧ q ≤ 50 → quantityTier q fb = 2) ∧
    (0 < q ∧ q < 30 → quantityTier q fb = 0) ∧
    (50 < q ∧ q < 200 → quantityTier q fb = 5) ∧
    (200 ≤ q → quantityTier q fb = 10) ∧
    (q = 0 ∨ (30 ≤ q ∧ q ≤ 50) ∨ (0 < q ∧ q < 30) ∨ (50 < q ∧ q < 200) ∨ 200 ≤ q) ∧
    ¬(q = 0 ∧ 30 ≤ q ∧ q ≤ 50) ∧ ¬(q = 0 ∧ 0 < q ∧ q < 30) ∧
    ¬(q = 0 ∧ 50 < q ∧ q < 200) ∧ ¬(q = 0 ∧ 200 ≤ q) ∧
    ¬((30 ≤ q ∧ q ≤ 50) ∧ 0 < q ∧ q < 30) ∧
    ¬((30 ≤ q ∧ q ≤ 50) ∧ 50 < q ∧ q < 200) ∧ ¬((30 ≤ q ∧ q ≤ 50) ∧ 200 ≤ q) ∧
    ¬((0 < q ∧ q < 30) ∧ 50 < q ∧ q < 200) ∧ ¬((0 < q ∧ q < 30) ∧ 200 ≤ q) ∧
    ¬((50 < q ∧ q < 200) ∧ 200 ≤ q) ∧
    quantityTier 0 fb = 0 ∧ quantityTier 29 fb = 0 ∧ quantityTier 30 fb = 2 ∧
    quantityTier 50 fb = 2 ∧ quantityTier 51 fb = 5 ∧ quantityTier 199 fb = 5 ∧
    quantityTier 200 fb = 10 ∧ quantityTier 1000 fb = 10 := by
  have hcov : q = 0 ∨ (30 ≤ q ∧ q ≤ 50) ∨ (0 < q ∧ q < 30) ∨ (50 < q ∧ q < 200) ∨ 200 ≤ q := by
    by_cases h0 : q = 0
    · exact Or.inl h0
    · by_cases hA : 30 ≤ q ∧ q ≤ 50
      · exact Or.inr (Or.inl hA)
      · by_cases hB : q < 30
        · exact Or.inr (Or.inr (Or.inl ⟨lt_of_le_of_ne h (Ne.symm h0), hB⟩))
        · by_cases hC : q < 200
          · push_neg at hA hB
            exact Or.inr (Or.inr (Or.inr (Or.inl ⟨by linarith [hA hB], hC⟩)))
          · push_neg at hC
            exact Or.inr (Or.inr (Or.inr (Or.inr hC)))
  refine ⟨
    fun hq => by unfold quantityTier; rw [if_pos hq],
    fun hq => by unfold quantityTier; rw [if_neg (by rintro rfl; linarith [hq.1]), if_pos hq],
    fun hq => by
      unfold quantityTier
      rw [if_neg (by rintro rfl; exact lt_irrefl 0 hq.1),
        if_neg (by rintro ⟨h1, h2⟩; linarith [hq.2]), if_pos hq.2],
    fun hq => by
      unfold quantityTier
      rw [if_neg (by rintro rfl; linarith [hq.1]),
        if_neg (by rintro ⟨h1, h2⟩; linarith [hq.1]),
        if_neg (not_lt.mpr (by linarith [hq.1])), if_pos hq],
    fun hq => by
      unfold quantityTier
      rw [if_neg (by rintro rfl; linarith),
        if_neg (by rintro ⟨h1, h2⟩; linarith),
        if_neg (not_lt.mpr (by linarith)),
        if_neg (by rintro ⟨h1, h2⟩; linarith), if_pos hq],
    hcov,
    by rintro ⟨rfl, h2, h3⟩; linarith,
    by rintro ⟨rfl, h2, h3⟩; linarith,
    by rintro ⟨rfl, h2, h3⟩; linarith,
    by rintro ⟨rfl, h2⟩; linarith,
    by rintro ⟨⟨h1, h2⟩, h3, h4⟩; linarith,
    by rintro ⟨⟨h1, h2⟩, h3, h4⟩; linarith,
    by rintro ⟨⟨h1, h2⟩, h3⟩; linarith,
    by rintro ⟨⟨h1, h2⟩, h3, h4⟩; linarith,
    by rintro ⟨⟨h1, h2⟩, h3⟩; linarith,
    by rintro ⟨⟨h1, h2⟩, h3⟩; linarith,
    by norm_num [quantityTier], by norm_num [quantityTier], by norm_num [quantityTier],
    by norm_num [quantityTier], by norm_num [quantityTier], by norm_num [quantityTier],
    by norm_num [quantityTier], by norm_num [quantityTier]⟩

end SyncVision

namespace SyncVision

theorem C2_witness : (0:ℚ) ≤ 40 ∧ quantityTier 40 7 = 2 :=
  ⟨by norm_num, (C2_quantity_tier 40 7 (by norm_num)).2.1 (by norm_num)⟩

/-- Claim C3.  After `_process_single_product` handles an item, the
item's published flag equals `hasValidIdentifier(sku) ∧
hasValidIdentifier(barcode)`, whatever the previous published state `b`
was; and exactly when that value is false, exactly one
unpublished-product entry is created, whose `missing_fields` names the
missing identifiers. -/
theorem C3_publish_invariant (p : ProductT) (b : Bool)
    (bySku byBarcode : List (PyStr × ApiEntry)) (now : ℤ) :
    ((processSingleProduct { p with websitePublished := b } bySku byBarcode now).product.websitePublished
      = (hasValidIdentifier p.defaultCode && hasValidIdentifier p.barcode)) ∧
    ((processSingleProduct { p with websitePublished := b } bySku byBarcode now).unpub.map
        (fun e => e.missingFields) =
      (if hasValidIdentifier p.defaultCode && hasValidIdentifier p.barcode then ([] : List PyStr)
       else if !hasValidIdentifier p.defaultCode && !hasValidIdentifier p.barcode then
         ["SKU and barcode".toList]
       else if !hasValidIdentifier p.defaultCode then ["SKU".toList]
       else ["barcode".toList])) := by
  cases hs : hasValidIdentifier p.defaultCode <;> cases hb : hasValidIdentifier p.barcode <;>
    simp [processSingleProduct, handleProductPublishing, hs, hb]

theorem mem_setAdd_self (s : PyStr) (set : List PyStr) : s ∈ setAdd s set := by
  unfold setAdd
  by_cases h : s ∈ set
  · rwa [if_pos h]
  · rw [if_neg h]
    exact List.mem_append_right _ (List.mem_singleton.mpr rfl)

theorem mem_setAdd_of_mem {s : PyStr} (x : PyStr) {set : List PyStr} (h : s ∈ set) :
    s ∈ setAdd x set := by
  unfold setAdd
  by_cases hx : x ∈ set
  · rwa [if_pos hx]
  · rw [if_neg hx]
    exact List.mem_append_left _ h

theorem chunkFold_skus_mono (throws : ProductT → Bool)
    (bySku byBarcode : List (PyStr × ApiEntry)) (now : ℤ) (prods : List ProductT)
    (acc : ChunkResult) {s : PyStr} (h : s ∈ acc.processedSkus) :
    s ∈ (prods.foldl (chunkStep throws bySku byBarcode now) acc).processedSkus := by
  induction prods generalizing acc with
  | nil => exact h
  | cons a t ih =>
    rw [List.foldl_cons]
    apply ih
    unfold chunkStep
    by_cases ha : throws a
    · rw [if_pos ha]
      exact h
    · rw [if_neg ha]
      cases hr : (processSingleProduct a bySku byBarcode now).processedSku with
      | none => simpa [hr] using h
      | some x => simpa [hr] using mem_setAdd_of_mem x h

theorem chunkFold_mem_skus (throws : ProductT → Bool)
    (bySku byBarcode : List (PyStr × ApiEntry)) (now : ℤ) (prods : List ProductT)
    (acc : ChunkResult) (p : ProductT) (s : PyStr) (hp : p ∈ prods)
    (hthrow : throws p = false)
    (hs : (processSingleProduct p bySku byBarcode now).processedSku = some s) :
    s ∈ (prods.foldl (chunkStep throws bySku byBarcode now) acc).processedSkus := by
  induction prods generalizing acc with
  | nil => cases hp
  | cons a t ih =>
    rw [List.foldl_cons]
    rcases List.mem_cons.mp hp with rfl | hmem
    · apply chunkFold_skus_mono
      unfold chunkStep
      rw [if_neg (by rw [hthrow]; exact Bool.false_ne_true)]
      simp only [hs]
      exact mem_setAdd_self s _
    · exact ih _ hmem

/-- Claim C9.  In the lookup block of `_process_single_product`
(lines 274-284): when the item's normalized SKU hits the by-SKU index, that
match is taken with priority — whatever the barcode index holds; when the
SKU misses and the normalized barcode hits the by-barcode index, the
matched feed entry is used and the entry's own `normalized_sku` (if any)
becomes the reported `processed_sku`, even though the item's SKU is absent
or different; and a `processed_sku` reported by a non-throwing item of a
chunk is added to the chunk's matched-SKU set. -/
theorem C9_match_priority_and_consumption :
    (∀ (k : PyStr) (nbar : Option PyStr) (bySku byBarcode : List (PyStr × ApiEntry))
        (e : ApiEntry), bySku.lookup k = some e →
      lookupApiData (some k) nbar bySku byBarcode = (some e, some k)) ∧
    (∀ (nbar : Option PyStr) (nsku : Option PyStr)
        (bySku byBarcode : List (PyStr × ApiEntry)) (b : PyStr) (e : ApiEntry),
      (∀ k, nsku = some k → bySku.lookup k = none) →
      nbar = some b → byBarcode.lookup b = some e →
      lookupApiData nsku nbar bySku byBarcode = (some e, e.normalizedSku)) ∧
    (∀ (throws : ProductT → Bool) (prods : List ProductT)
        (bySku byBarcode : List (PyStr × ApiEntry)) (now : ℤ) (p : ProductT) (s : PyStr),
      p ∈ prods → throws p = false →
      (processSingleProduct p bySku byBarcode now).processedSku = some s →
      s ∈ (processProductChunk throws prods bySku byBarcode now).processedSkus) := by
  refine ⟨?_, ?_, ?_⟩
  · intro k nbar bySku byBarcode e he
    simp [lookupApiData, he]
  · intro nbar nsku bySku byBarcode b e hnone hb he
    subst hb
    cases nsku with
    | none => simp [lookupApiData, he]
    | some k => simp [lookupApiData, hnone k rfl, he]
  · intro throws prods bySku byBarcode now p s hp hthrow hs
    exact chunkFold_mem_skus throws bySku byBarcode now prods _ p s hp hthrow hs

theorem C9_witness :
    ([("A1".toList, (⟨"E1".toList, 40, "A1".toList, none, [], some "A1".toList⟩ : ApiEntry))].lookup "A1".toList
        = some (⟨"E1".toList, 40, "A1".toList, none, [], some "A1".toList⟩ : ApiEntry)) ∧
    lookupApiData (some "A1".toList) (some "B1".toList)
        [("A1".toList, ⟨"E1".toList, 40, "A1".toList, none, [], some "A1".toList⟩)]
        [("B1".toList, ⟨"E2".toList, 70, "Z9".toList, some "B1".toList, [], some "Z9".toList⟩)]
      = (some ⟨"E1".toList, 40, "A1".toList, none, [], some "A1".toList⟩, some "A1".toList) ∧
    lookupApiData none (some "B1".toList)
        [("A1".toList, ⟨"E1".toList, 40, "A1".toList, none, [], some "A1".toList⟩)]
        [("B1".toList, ⟨"E2".toList, 70, "Z9".toList, some "B1".toList, [], some "Z9".toList⟩)]
      = (some ⟨"E2".toList, 70, "Z9".toList, some "B1".toList, [], some "Z9".toList⟩,
          some "Z9".toList) ∧
    "Z9".toList ∈ (processProductChunk (fun _ => false)
        [{ pid := 9, defaultCode := none, barcode := some "B1".toList, qtyAvailable := 0,
           prodType := "product".toList, detailedType := none, websitePublished := true,
           templateBrand := none }]
        [("A1".toList, ⟨"E1".toList, 40, "A1".toList, none, [], some "A1".toList⟩)]
        [("B1".toList, ⟨"E2".toList, 70, "Z9".toList, some "B1".toList, [], some "Z9".toList⟩)]
        0).processedSkus := by
  refine ⟨by decide, ?_, ?_, ?_⟩
  · exact C9_match_priority_and_consumption.1 "A1".toList (some "B1".toList) _ _ _ (by decide)
  · exact C9_match_priority_and_consumption.2.1 (some "B1".toList) none _ _ "B1".toList _
      (fun k hk => by cases hk) rfl (by decide)
  · exact C9_match_priority_and_consumption.2.2 (fun _ => false) _ _ _ 0 _ "Z9".toList
      (List.mem_singleton.mpr rfl) rfl (by decide)

theorem chunkFold_count (throws : ProductT → Bool)
    (bySku byBarcode : List (PyStr × ApiEntry)) (now : ℤ) (prods : List ProductT)
    (acc : ChunkResult) :
    (prods.foldl (chunkStep throws bySku byBarcode now) acc).processedCount
      = acc.processedCount + (prods.filter (fun p => !throws p)).length := by
  induction prods generalizing acc with
  | nil => simp
  | cons a t ih =>
    rw [List.foldl_cons, ih]
    by_cases ha : throws a
    · simp [chunkStep, ha, List.filter_cons]
    · simp [chunkStep, ha, List.filter_cons]
      omega

theorem driverFold_failed (throws : ProductT → Bool)
    (bySku byBarcode : List (PyStr × ApiEntry)) (now : ℤ)
    (chunks : List (List ProductT)) (acc : ChunksAcc) :
    (chunks.foldl (driverChunkStep throws bySku byBarcode now) acc).failed = acc.failed := by
  induction chunks generalizing acc with
  | nil => rfl
  | cons c t ih =>
    rw [List.foldl_cons, ih]
    rfl

/-- Claim C4, amended.  The claim as stated is false (see
`C4_counterexample`): an exception raised while processing one item inside
a batch is caught by the per-item handler of `_process_product_chunk`
(lines 250-252), not by the chunk-level handler.  Amended: the throwing
item alone is skipped — a chunk's processed count is the number of its
non-throwing items — and the driver's `failed` counter stays 0; the run
continues either way. -/
theorem C4_item_level_isolation (throws : ProductT → Bool)
    (bySku byBarcode : List (PyStr × ApiEntry)) (now : ℤ) :
    (∀ prods : List ProductT,
      (processProductChunk throws prods bySku byBarcode now).processedCount
        = (prods.filter (fun p => !throws p)).length) ∧
    (∀ (resp : FetchResponse) (cfg : Option PanelConfig) (templates : List InvTemplate)
        (chunkSize : Nat) (st : EngineState),
      (syncProductsChunked resp throws cfg templates now chunkSize st).failed = 0) := by
  constructor
  · intro prods
    unfold processProductChunk
    rw [chunkFold_count]
    simp
  · intro resp cfg templates chunkSize st
    unfold syncProductsChunked
    cases h : fetchApiData resp with
    | none => rfl
    | some api => simp [driverFold_failed]

set_option maxRecDepth 40000 in
theorem C4_counterexample :
    state100.products.length = 100 ∧
    (chunksOf 100 state100.products).length = 1 ∧
    (fun p : ProductT => decide (p.pid = 47)) (mkPlainProduct 47) = true ∧
    (syncProductsChunked (.payload true (some [])) (fun p => decide (p.pid = 47)) none [] 1000
        100 state100).processed = 99 ∧
    (syncProductsChunked (.payload true (some [])) (fun p => decide (p.pid = 47)) none [] 1000
        100 state100).failed = 0 :=
  ⟨by decide, by decide, by decide, by decide, by decide⟩

/-- Claim C1, amended.  The claim as stated is false (see
`C1_counterexample`): `_fetch_api_data` returns `None` on transport,
timeout and bad-envelope failures instead of raising, so `run_sync` never
reaches its `except` branch.  Amended: when feed ingestion fails, the run
aborts before any stock or publish mutation (the products are untouched
and the resolver never runs) and is recorded as a single run-level summary
— but that summary carries status `success` (`alert = False`,
note `Sync success: Sync successful`), not `fail`. -/
theorem C1_feed_failure_aborts_with_success_summary (resp : FetchResponse)
    (throws : ProductT → Bool) (cfg : Option PanelConfig) (templates : List InvTemplate)
    (now : ℤ) (st : EngineState) (hfail : fetchApiData resp = none) :
    runSync resp throws cfg templates now st =
      { products := st.products
        syncLogs := [{ sku := .str "SYSTEM".toList, brand := some "SyncVision".toList
                       mainId := none, barcode := none, quantity := 0, alert := false
                       note := [.syncSummary "success".toList "Sync successful".toList] }]
        unpub := []
        missing := st.missing.filter (fun r => ¬ r.createDate < now - oneDaySeconds) } := by
  simp [runSync, syncProductsChunked, clearPreviousLogs, hfail]

theorem C1_witness :
    fetchApiData .transportError = none ∧
    runSync .transportError (fun _ => false) none [] 1000000 stateC1 =
      { products := stateC1.products
        syncLogs := [{ sku := .str "SYSTEM".toList, brand := some "SyncVision".toList
                       mainId := none, barcode := none, quantity := 0, alert := false
                       note := [.syncSummary "success".toList "Sync successful".toList] }]
        unpub := [], missing := [] } :=
  ⟨rfl,
    (C1_feed_failure_aborts_with_success_summary .transportError (fun _ => false) none []
        1000000 stateC1 rfl).trans (by decide)⟩

theorem C1_counterexample :
    fetchApiData .transportError = none ∧
    (runSync .transportError (fun _ => false) none [] 1000000 stateC1).syncLogs =
      [{ sku := .str "SYSTEM".toList, brand := some "SyncVision".toList, mainId := none
         barcode := none, quantity := 0, alert := false
         note := [.syncSummary "success".toList "Sync successful".toList] }] ∧
    (runSync .transportError (fun _ => false) none [] 1000000 stateC1).products
      = stateC1.products :=
  ⟨rfl, by decide, by decide⟩

/-- Claim C10, amended.  The claim as stated is false (see
`C10_counterexample`): the purge of `_clear_previous_logs`
(lines 701-708) filters on `create_date` only, with no status condition.
Amended: at run start every missing-product record older than one
run-cycle period (one day) is deleted regardless of its status —
`created` and `ignored` records included — and a record survives exactly
when its `create_date` is within the period. -/
theorem C10_purge_by_age_only (now : ℤ) (st : EngineState) :
    ((clearPreviousLogs now st).syncLogs = [] ∧ (clearPreviousLogs now st).unpub = []) ∧
    (∀ r : MissingRecord, r ∈ (clearPreviousLogs now st).missing ↔
      (r ∈ st.missing ∧ ¬ r.createDate < now - oneDaySeconds)) := by
  refine ⟨⟨rfl, rfl⟩, fun r => ?_⟩
  simp [clearPreviousLogs, List.mem_filter]

theorem C10_counterexample :
    oldCreatedRec.status = MStatus.created ∧
    oldCreatedRec.createDate < 200000 - oneDaySeconds ∧
    (clearPreviousLogs 200000
        { products := [], syncLogs := [], unpub := [], missing := [oldCreatedRec] }).missing
      = [] :=
  ⟨rfl, by decide, by decide⟩

end SyncVision

namespace SyncVision

theorem C5_counterexample :
    svNormSku (prodPunct.defaultCode.getD []) = svNormSku "AB-100".toList ∧
    (missingCreate [prodPunct] [] 1000
        { sku := .str "AB-100".toList, mainId := none, barcode := none, quantity := 7
          brand := none, syncDate := 1000, note := [] }).status = MStatus.missing ∧
    (processMissingProducts none [prodPunct] [] 1000 [("AB100".toList, entryAB)] [] []).map
        (fun r => r.status) = [MStatus.missing] :=
  ⟨by decide, by decide, by decide⟩

/-- Claim C5, amended.  The claim as stated is false (see
`C5_counterexample`): the relaxed-match guard pre-filters candidates with
`ilike` on the first and last four characters of the normalized target, so
an inventory item whose raw SKU does not contain those substrings (such as
`"A-B-1-0-0"` against feed SKU `"AB-100"`) is never examined and the
record is created `missing` despite the equal relaxed normalization.
Amended: when some inventory item both passes the head/tail `ilike`
candidate filter and has an equal relaxed-normalized SKU (and at most 200
products exist), the record is created with status `ignored` and an audit
note referencing the matched product id; when no inventory item or
template matches by relaxed normalization at all, it is created with
status `missing` and the note untouched. -/
theorem C5_relaxed_guard (products : List ProductT) (templates : List InvTemplate)
    (now : ℤ) (v : MissingVals) :
    ((products.length ≤ 200) →
      (∃ p ∈ products,
        (pyIlike p.defaultCode ((svNormSku (idStrToPyStr v.sku)).take 4)
          && pyIlike p.defaultCode ((svNormSku (idStrToPyStr v.sku)).drop
              ((svNormSku (idStrToPyStr v.sku)).length - 4))) = true ∧
        svNormSku (p.defaultCode.getD []) = svNormSku (idStrToPyStr v.sku) ∧
        svNormSku (idStrToPyStr v.sku) ≠ []) →
      (missingCreate products templates now v).status = MStatus.ignored ∧
      ∃ pid, (missingCreate products templates now v).note = v.note ++ [.ignoredMatch pid]) ∧
    ((∀ p ∈ products, svNormSku (p.defaultCode.getD []) ≠ svNormSku (idStrToPyStr v.sku)) →
      (∀ t ∈ templates, svNormSku (t.defaultCode.getD []) ≠ svNormSku (idStrToPyStr v.sku)) →
      (missingCreate products templates now v).status = MStatus.missing ∧
      (missingCreate products templates now v).note = v.note) := by
  constructor
  · rintro hlen ⟨p, hp, hcand, hnorm, hne⟩
    have htake :
        ((products.filter (fun q => pyIlike q.defaultCode ((svNormSku (idStrToPyStr v.sku)).take 4)
          && pyIlike q.defaultCode ((svNormSku (idStrToPyStr v.sku)).drop
              ((svNormSku (idStrToPyStr v.sku)).length - 4)))).take 200)
          = products.filter (fun q => pyIlike q.defaultCode ((svNormSku (idStrToPyStr v.sku)).take 4)
          && pyIlike q.defaultCode ((svNormSku (idStrToPyStr v.sku)).drop
              ((svNormSku (idStrToPyStr v.sku)).length - 4))) :=
      List.take_of_length_le (le_trans (List.length_filter_le _ _) hlen)
    have hpf : p ∈ products.filter
        (fun q => pyIlike q.defaultCode ((svNormSku (idStrToPyStr v.sku)).take 4)
          && pyIlike q.defaultCode ((svNormSku (idStrToPyStr v.sku)).drop
              ((svNormSku (idStrToPyStr v.sku)).length - 4))) :=
      List.mem_filter.mpr ⟨hp, hcand⟩
    have hguard : ∃ pid,
        svFindProductBySkuOnlyRelaxed products templates (idStrToPyStr v.sku) = some pid := by
      simp only [svFindProductBySkuOnlyRelaxed]
      rw [if_neg hne, htake]
      cases hfind : (products.filter
          (fun q => pyIlike q.defaultCode ((svNormSku (idStrToPyStr v.sku)).take 4)
            && pyIlike q.defaultCode ((svNormSku (idStrToPyStr v.sku)).drop
                ((svNormSku (idStrToPyStr v.sku)).length - 4)))).find?
          (fun q => svNormSku (q.defaultCode.getD []) = svNormSku (idStrToPyStr v.sku)) with
      | none =>
        exfalso
        have hnc := List.find?_eq_none.mp hfind p hpf
        simp [hnorm] at hnc
      | some q =>
        exact ⟨q.pid, rfl⟩
    obtain ⟨pid, hguard⟩ := hguard
    simp only [missingCreate, hguard]
    exact ⟨trivial, pid, rfl⟩
  · intro hprod htmpl
    have hfind : svFindProductBySkuOnlyRelaxed products templates (idStrToPyStr v.sku) = none := by
      simp only [svFindProductBySkuOnlyRelaxed]
      by_cases h0 : svNormSku (idStrToPyStr v.sku) = []
      · rw [if_pos h0]
      · rw [if_neg h0]
        have hc1 : ∀ P : ProductT → Bool,
            ((products.filter P).take 200).find?
              (fun q => svNormSku (q.defaultCode.getD []) = svNormSku (idStrToPyStr v.sku))
              = none := fun P =>
          List.find?_eq_none.mpr (fun q hq => by
            have hqm : q ∈ products := List.mem_of_mem_filter (List.mem_of_mem_take hq)
            simp [hprod q hqm])
        have hc2 : ∀ P : InvTemplate → Bool,
            ((templates.filter P).take 200).find?
              (fun t => svNormSku (t.defaultCode.getD []) = svNormSku (idStrToPyStr v.sku))
              = none := fun P =>
          List.find?_eq_none.mpr (fun t ht => by
            have htm : t ∈ templates := List.mem_of_mem_filter (List.mem_of_mem_take ht)
            simp [htmpl t htm])
        have hc3 : products.find? (fun q => q.defaultCode = some (idStrToPyStr v.sku)) = none :=
          List.find?_eq_none.mpr (fun q hq => by
            intro hcontra
            apply hprod q hq
            rw [of_decide_eq_true hcontra]
            rfl)
        simp only [hc1, hc2, hc3]
    simp only [missingCreate, hfind]
    exact ⟨trivial, trivial⟩

theorem C5_witness :
    ([prodAB100].length ≤ 200 ∧
      (missingCreate [prodAB100] [] 1000
        { sku := .str "AB-100".toList, mainId := none, barcode := none, quantity := 7
          brand := none, syncDate := 1000, note := [] }).status = MStatus.ignored) ∧
    (missingCreate [] [] 1000
        { sku := .str "ZZ-9".toList, mainId := none, barcode := none, quantity := 1
          brand := none, syncDate := 1000, note := [] }).status = MStatus.missing :=
  ⟨⟨by decide,
      ((C5_relaxed_guard [prodAB100] [] 1000
          { sku := .str "AB-100".toList, mainId := none, barcode := none, quantity := 7
            brand := none, syncDate := 1000, note := [] }).1 (by decide)
        ⟨prodAB100, by decide⟩).1⟩,
    ((C5_relaxed_guard [] [] 1000
        { sku := .str "ZZ-9".toList, mainId := none, barcode := none, quantity := 1
          brand := none, syncDate := 1000, note := [] }).2
      (fun p hp => absurd hp (List.not_mem_nil p))
      (fun t ht => absurd ht (List.not_mem_nil t))).1⟩

end SyncVision

namespace SyncVision

theorem countMissing_cons (r : MissingRecord) (rs : List MissingRecord) :
    countMissing (r :: rs) = (if r.status = .missing then 1 else 0) + countMissing rs := by
  unfold countMissing
  rw [List.filter_cons]
  by_cases h : r.status = .missing <;> simp [h] <;> omega

theorem countMissing_append (a b : List MissingRecord) :
    countMissing (a ++ b) = countMissing a + countMissing b := by
  unfold countMissing
  rw [List.filter_append, List.length_append]

theorem countMissing_reverse (l : List MissingRecord) :
    countMissing l.reverse = countMissing l := by
  unfold countMissing
  rw [List.filter_reverse, List.length_reverse]

theorem updateFirstMissing_count (k : IdStr) (now : ℤ) (q : ℚ)
    (recs : List MissingRecord) :
    countMissing (updateFirstMissing k now q recs) = countMissing recs := by
  induction recs with
  | nil => rfl
  | cons r rs ih =>
    unfold updateFirstMissing
    by_cases h : r.sku = k ∧ r.status = .missing
    · rw [if_pos h, countMissing_cons, countMissing_cons]
    · rw [if_neg h, countMissing_cons, countMissing_cons, ih]

theorem updateFirstMissing_any (k : IdStr) (now : ℤ) (q : ℚ) (k2 : IdStr)
    (recs : List MissingRecord) :
    ((updateFirstMissing k now q recs).any (fun r => r.sku = k2 && r.status = .missing))
      = (recs.any (fun r => r.sku = k2 && r.status = .missing)) := by
  induction recs with
  | nil => rfl
  | cons r rs ih =>
    unfold updateFirstMissing
    by_cases h : r.sku = k ∧ r.status = .missing
    · rw [if_pos h, List.any_cons, List.any_cons]
    · rw [if_neg h, List.any_cons, List.any_cons, ih]

theorem updateNewestMissing_count (k : IdStr) (now : ℤ) (q : ℚ)
    (recs : List MissingRecord) :
    countMissing (updateNewestMissing k now q recs) = countMissing recs := by
  unfold updateNewestMissing
  rw [countMissing_reverse, updateFirstMissing_count, countMissing_reverse]

theorem updateNewestMissing_any (k : IdStr) (now : ℤ) (q : ℚ) (k2 : IdStr)
    (recs : List MissingRecord) :
    ((updateNewestMissing k now q recs).any (fun r => r.sku = k2 && r.status = .missing))
      = (recs.any (fun r => r.sku = k2 && r.status = .missing)) := by
  unfold updateNewestMissing
  rw [List.any_reverse, updateFirstMissing_any, List.any_reverse]

theorem missingCreate_sku (products : List ProductT) (templates : List InvTemplate)
    (now : ℤ) (v : MissingVals) : (missingCreate products templates now v).sku = v.sku := by
  simp only [missingCreate]
  cases hg : svFindProductBySkuOnlyRelaxed products templates (idStrToPyStr v.sku) <;>
    simp [hg]

theorem missingCreate_status (products : List ProductT) (templates : List InvTemplate)
    (now : ℤ) (v : MissingVals) :
    (missingCreate products templates now v).status =
      (if (svFindProductBySkuOnlyRelaxed products templates (idStrToPyStr v.sku)).isSome
        then MStatus.ignored else MStatus.missing) := by
  simp only [missingCreate]
  cases hg : svFindProductBySkuOnlyRelaxed products templates (idStrToPyStr v.sku) <;>
    simp [hg]

theorem missingStep_skip (fe : Bool) (prefixes : List PyStr) (products : List ProductT)
    (templates : List InvTemplate) (now : ℤ) (processedSkus : List PyStr)
    (recs : List MissingRecord) (kv : PyStr × ApiEntry)
    (h : kv.1 ∈ processedSkus ∨ (fe ∧ prefixes ≠ [] ∧
      ¬(kv.2.sku ≠ [] ∧ prefixes.any (fun pre => pre.isPrefixOf kv.2.sku)))) :
    missingStep fe prefixes products templates now processedSkus recs kv = recs := by
  unfold missingStep
  rcases h with h | h
  · rw [if_pos h]
  · by_cases h1 : kv.1 ∈ processedSkus
    · rw [if_pos h1]
    · rw [if_neg h1, if_pos h]

theorem missingStep_established (fe : Bool) (prefixes : List PyStr)
    (products : List ProductT) (templates : List InvTemplate) (now : ℤ)
    (processedSkus : List PyStr) (recs : List MissingRecord) (kv : PyStr × ApiEntry)
    (h1 : kv.1 ∉ processedSkus)
    (h2 : ¬(fe ∧ prefixes ≠ [] ∧
      ¬(kv.2.sku ≠ [] ∧ prefixes.any (fun pre => pre.isPrefixOf kv.2.sku)))) :
    ((missingStep fe prefixes products templates now processedSkus recs kv).any
        (fun r => r.sku = searchSkuOf kv && r.status = .missing)) = true ∨
    (svFindProductBySkuOnlyRelaxed products templates
        (idStrToPyStr (searchSkuOf kv))).isSome = true := by
  unfold missingStep
  rw [if_neg h1, if_neg h2]
  by_cases h3 : (recs.any (fun r => r.sku = searchSkuOf kv && r.status = .missing)) = true
  · rw [if_pos h3]
    left
    rw [updateNewestMissing_any]
    exact h3
  · rw [if_neg h3]
    cases hg : svFindProductBySkuOnlyRelaxed products templates
        (idStrToPyStr (searchSkuOf kv)) with
    | some pid =>
      right
      rfl
    | none =>
      left
      rw [List.any_append]
      have hsku : (missingCreate products templates now (mkMissingVals now kv)).sku
          = searchSkuOf kv := missingCreate_sku products templates now (mkMissingVals now kv)
      have hst : (missingCreate products templates now (mkMissingVals now kv)).status
          = MStatus.missing := by
        rw [missingCreate_status]
        have : idStrToPyStr (mkMissingVals now kv).sku = idStrToPyStr (searchSkuOf kv) := rfl
        rw [this, hg]
        rfl
      simp [hsku, hst]

theorem missingStep_mono (fe : Bool) (prefixes : List PyStr) (products : List ProductT)
    (templates : List InvTemplate) (now : ℤ) (processedSkus : List PyStr)
    (recs : List MissingRecord) (kv kv2 : PyStr × ApiEntry)
    (hp : (recs.any (fun r => r.sku = searchSkuOf kv2 && r.status = .missing)) = true ∨
      (svFindProductBySkuOnlyRelaxed products templates
        (idStrToPyStr (searchSkuOf kv2))).isSome = true) :
    ((missingStep fe prefixes products templates now processedSkus recs kv).any
        (fun r => r.sku = searchSkuOf kv2 && r.status = .missing)) = true ∨
    (svFindProductBySkuOnlyRelaxed products templates
        (idStrToPyStr (searchSkuOf kv2))).isSome = true := by
  rcases hp with hp | hp
  · unfold missingStep
    by_cases h1 : kv.1 ∈ processedSkus
    · rw [if_pos h1]
      exact Or.inl hp
    · rw [if_neg h1]
      by_cases h2 : fe ∧ prefixes ≠ [] ∧
          ¬(kv.2.sku ≠ [] ∧ prefixes.any (fun pre => pre.isPrefixOf kv.2.sku))
      · rw [if_pos h2]
        exact Or.inl hp
      · rw [if_neg h2]
        by_cases h3 : (recs.any (fun r => r.sku = searchSkuOf kv && r.status = .missing)) = true
        · rw [if_pos h3]
          left
          rw [updateNewestMissing_any]
          exact hp
        · rw [if_neg h3]
          left
          rw [List.any_append]
          rw [hp]
          rfl
  · exact Or.inr hp

theorem missingStep_count (fe : Bool) (prefixes : List PyStr) (products : List ProductT)
    (templates : List InvTemplate) (now : ℤ) (processedSkus : List PyStr)
    (recs : List MissingRecord) (kv : PyStr × ApiEntry)
    (h : (kv.1 ∈ processedSkus ∨ (fe ∧ prefixes ≠ [] ∧
        ¬(kv.2.sku ≠ [] ∧ prefixes.any (fun pre => pre.isPrefixOf kv.2.sku)))) ∨
      ((recs.any (fun r => r.sku = searchSkuOf kv && r.status = .missing)) = true ∨
        (svFindProductBySkuOnlyRelaxed products templates
          (idStrToPyStr (searchSkuOf kv))).isSome = true)) :
    countMissing (missingStep fe prefixes products templates now processedSkus recs kv)
      = countMissing recs := by
  rcases h with hskip | hP
  · rw [missingStep_skip fe prefixes products templates now processedSkus recs kv hskip]
  · unfold missingStep
    by_cases h1 : kv.1 ∈ processedSkus
    · rw [if_pos h1]
    · rw [if_neg h1]
      by_cases h2 : fe ∧ prefixes ≠ [] ∧
          ¬(kv.2.sku ≠ [] ∧ prefixes.any (fun pre => pre.isPrefixOf kv.2.sku))
      · rw [if_pos h2]
      · rw [if_neg h2]
        by_cases h3 : (recs.any (fun r => r.sku = searchSkuOf kv && r.status = .missing)) = true
        · rw [if_pos h3, updateNewestMissing_count]
        · rw [if_neg h3, countMissing_append]
          rcases hP with hP | hP
          · exact absurd hP h3
          · have hst : (missingCreate products templates now (mkMissingVals now kv)).status
                = MStatus.ignored := by
              rw [missingCreate_status]
              have heq : idStrToPyStr (mkMissingVals now kv).sku
                  = idStrToPyStr (searchSkuOf kv) := rfl
              rw [heq, hP]
              rfl
            rw [countMissing_cons]
            simp [hst, countMissing]

end SyncVision

namespace SyncVision

theorem missingFold_mono (fe : Bool) (prefixes : List PyStr) (products : List ProductT)
    (templates : List InvTemplate) (now : ℤ) (processedSkus : List PyStr)
    (feed : List (PyStr × ApiEntry)) (recs : List MissingRecord) (kv2 : PyStr × ApiEntry)
    (hp : (recs.any (fun r => r.sku = searchSkuOf kv2 && r.status = .missing)) = true ∨
      (svFindProductBySkuOnlyRelaxed products templates
        (idStrToPyStr (searchSkuOf kv2))).isSome = true) :
    ((feed.foldl (missingStep fe prefixes products templates now processedSkus) recs).any
        (fun r => r.sku = searchSkuOf kv2 && r.status = .missing)) = true ∨
    (svFindProductBySkuOnlyRelaxed products templates
        (idStrToPyStr (searchSkuOf kv2))).isSome = true := by
  induction feed generalizing recs with
  | nil => exact hp
  | cons a t ih =>
    rw [List.foldl_cons]
    exact ih _ (missingStep_mono fe prefixes products templates now processedSkus recs a kv2 hp)

theorem missingFold_established (fe : Bool) (prefixes : List PyStr)
    (products : List ProductT) (templates : List InvTemplate) (now : ℤ)
    (processedSkus : List PyStr) (feed : List (PyStr × ApiEntry))
    (recs : List MissingRecord) (kv : PyStr × ApiEntry) (hkv : kv ∈ feed)
    (h1 : kv.1 ∉ processedSkus)
    (h2 : ¬(fe ∧ prefixes ≠ [] ∧
      ¬(kv.2.sku ≠ [] ∧ prefixes.any (fun pre => pre.isPrefixOf kv.2.sku)))) :
    ((feed.foldl (missingStep fe prefixes products templates now processedSkus) recs).any
        (fun r => r.sku = searchSkuOf kv && r.status = .missing)) = true ∨
    (svFindProductBySkuOnlyRelaxed products templates
        (idStrToPyStr (searchSkuOf kv))).isSome = true := by
  induction feed generalizing recs with
  | nil => cases hkv
  | cons a t ih =>
    rw [List.foldl_cons]
    rcases List.mem_cons.mp hkv with rfl | hmem
    · exact missingFold_mono fe prefixes products templates now processedSkus t _ kv
        (missingStep_established fe prefixes products templates now processedSkus recs kv h1 h2)
    · exact ih _ hmem

theorem missingFold_count (fe : Bool) (prefixes : List PyStr) (products : List ProductT)
    (templates : List InvTemplate) (now : ℤ) (processedSkus : List PyStr)
    (feed : List (PyStr × ApiEntry)) (recs : List MissingRecord)
    (h : ∀ kv ∈ feed,
      (kv.1 ∈ processedSkus ∨ (fe ∧ prefixes ≠ [] ∧
        ¬(kv.2.sku ≠ [] ∧ prefixes.any (fun pre => pre.isPrefixOf kv.2.sku)))) ∨
      ((recs.any (fun r => r.sku = searchSkuOf kv && r.status = .missing)) = true ∨
        (svFindProductBySkuOnlyRelaxed products templates
          (idStrToPyStr (searchSkuOf kv))).isSome = true)) :
    countMissing (feed.foldl (missingStep fe prefixes products templates now processedSkus) recs)
      = countMissing recs := by
  induction feed generalizing recs with
  | nil => rfl
  | cons a t ih =>
    rw [List.foldl_cons]
    have hstep := missingStep_count fe prefixes products templates now processedSkus recs a
      (h a (List.mem_cons_self a t))
    rw [ih _ ?_, hstep]
    intro kv hkv
    rcases h kv (List.mem_cons_of_mem a hkv) with hskip | hP
    · exact Or.inl hskip
    · exact Or.inr
        (missingStep_mono fe prefixes products templates now processedSkus recs a kv hP)

/-- Claim C6, amended.  The claim as stated (“creates no duplicate
records”) is false (see `C6_counterexample`): an unmatched SKU whose only
record has status `ignored` fails the `status = 'missing'` search of
line 459, so the guarded create runs again and a second `ignored` record
for the same SKU is appended each run.  Amended: running the resolver a
second time with the same feed index, inventory, configuration and
matched-SKU set creates no duplicate `missing` records — each
still-unmatched SKU with an existing `missing` record is updated in place
— so the count of `missing` records is unchanged after the second run. -/
theorem C6_missing_count_idempotent (cfg : Option PanelConfig)
    (products : List ProductT) (templates : List InvTemplate) (now1 now2 : ℤ)
    (bySku : List (PyStr × ApiEntry)) (processedSkus : List PyStr)
    (recs : List MissingRecord) :
    countMissing
      (processMissingProducts cfg products templates now2 bySku processedSkus
        (processMissingProducts cfg products templates now1 bySku processedSkus recs))
      = countMissing (processMissingProducts cfg products templates now1 bySku processedSkus recs) := by
  unfold processMissingProducts
  apply missingFold_count
  intro kv hkv
  by_cases h1 : kv.1 ∈ processedSkus
  · exact Or.inl (Or.inl h1)
  · by_cases h2 : panelFilterEnabled cfg ∧ panelPrefixes cfg ≠ [] ∧
      ¬(kv.2.sku ≠ [] ∧ (panelPrefixes cfg).any (fun pre => pre.isPrefixOf kv.2.sku))
    · exact Or.inl (Or.inr h2)
    · exact Or.inr (missingFold_established (panelFilterEnabled cfg) (panelPrefixes cfg)
        products templates now1 processedSkus bySku recs kv hkv h1 h2)

theorem C6_counterexample :
    (processMissingProducts none [prodAB100] [] 1000 [("AB100".toList, entryAB)] [] []).length
      = 1 ∧
    (processMissingProducts none [prodAB100] [] 2000 [("AB100".toList, entryAB)] []
      (processMissingProducts none [prodAB100] [] 1000 [("AB100".toList, entryAB)] [] [])).length
      = 2 ∧
    ((processMissingProducts none [prodAB100] [] 2000 [("AB100".toList, entryAB)] []
      (processMissingProducts none [prodAB100] [] 1000 [("AB100".toList, entryAB)] [] [])).map
        (fun r => r.sku))
      = [.str "AB-100".toList, .str "AB-100".toList] :=
  ⟨by decide, by decide, by decide⟩

end SyncVision
